import Mathlib

/-!
# CircusCircus forum — authentication core, shallow embedding

This file embeds the credential-validation and login-attempt rate-limiting
logic of the CircusCircus forum (the `forum/auth` package together with the
helper validators in `forum/auth.py`) and proves the specified properties
about it.

Conventions of the embedding:

* Python strings are modelled as `List Char` (`Str`); string literals are
  written `"...".data`.
* The account store (`User` table) is a `List Account`; an SQLAlchemy
  `query.filter_by(...).first()` becomes `List.find?` / `List.filter`.
* The login-attempt ledger (`login_attempts` table) is a `List AttemptRecord`,
  append-only; `datetime` timestamps are integers counted in seconds, so a
  window of `hours` hours is `hours * 3600` seconds.
* Password hashing (`werkzeug.generate_password_hash` /
  `check_password_hash`) is abstracted: functions that verify a password take
  a verifier `check : Account → Str → Bool` as a parameter.
* Python `re.match(r"^R$", s)` succeeds iff `R` matches all of `s`, or all of
  `s` minus a single final newline — in Python the `$` anchor also matches
  just before a trailing `'\n'`.  `pyMatchDollar` captures this.
-/

/-- Python strings, modelled as lists of characters. -/
abbrev Str := List Char

/-- Characters of the regex class `[a-zA-Z0-9@#&%!]` used by both the
username and the password patterns in `auth_validators.py`. -/
def isUserChar (c : Char) : Bool :=
  c.isAlpha || c.isDigit || c == '@' || c == '#' || c == '&' || c == '%' || c == '!'

/-- Characters of the local-part class `[a-zA-Z0-9._%+-]` of
`EMAIL_REGEX`. -/
def isLocalChar (c : Char) : Bool :=
  c.isAlpha || c.isDigit || c == '.' || c == '_' || c == '%' || c == '+' || c == '-'

/-- Characters of the domain class `[a-zA-Z0-9.-]` of `EMAIL_REGEX`. -/
def isDomainChar (c : Char) : Bool :=
  c.isAlpha || c.isDigit || c == '.' || c == '-'

/-- Full match of `[a-zA-Z0-9@#&%!]{lo,hi}` against the whole string:
the length lies in `[lo, hi]` and every character is in the class. -/
def classRepeatCore (cls : Char → Bool) (lo hi : Nat) (s : Str) : Bool :=
  decide (lo ≤ s.length) && decide (s.length ≤ hi) && s.all cls

/-- Full match (without anchors) of the tail `[a-zA-Z0-9.-]+\.[a-zA-Z]{2,}`
of `EMAIL_REGEX` against the whole of `r`: some decomposition
`r = domain ++ "." ++ tld` with `domain` nonempty over the domain class and
`tld` at least two letters.  The search over the dot position reproduces the
regex engine's backtracking. -/
def emailDomainTail (r : Str) : Bool :=
  (List.range r.length).any fun j =>
    decide (1 ≤ j) && (r.get? j == some '.') && (r.take j).all isDomainChar &&
      decide (2 ≤ (r.drop (j + 1)).length) && (r.drop (j + 1)).all Char.isAlpha

/-- Full match (without anchors) of
`[a-zA-Z0-9._%+-]+@[a-zA-Z0-9.-]+\.[a-zA-Z]{2,}` (the body of `EMAIL_REGEX`)
against the whole of `t`: some decomposition `t = local ++ "@" ++ rest` with
`local` nonempty over the local class and `rest` matching the domain tail. -/
def emailCore (t : Str) : Bool :=
  (List.range t.length).any fun i =>
    decide (1 ≤ i) && (t.get? i == some '@') && (t.take i).all isLocalChar &&
      emailDomainTail (t.drop (i + 1))

/-- Python's `re.match(r"^R$", s)`: the core pattern must consume the whole
string, or the whole string up to a single final `'\n'` (Python's `$` also
matches just before a trailing newline). -/
def pyMatchDollar (core : Str → Bool) (s : Str) : Bool :=
  core s || ((s.getLast? == some '\n') && core s.dropLast)

/-- `USERNAME_REGEX.match(s)`, i.e. `re.match(r"^[a-zA-Z0-9@#&%!]{3,40}$", s)`. -/
def usernameRegexMatch (s : Str) : Bool :=
  pyMatchDollar (classRepeatCore isUserChar 3 40) s

/-- `PASSWORD_REGEX.match(s)`, i.e. `re.match(r"^[a-zA-Z0-9@#&%!]{6,40}$", s)`. -/
def passwordRegexMatch (s : Str) : Bool :=
  pyMatchDollar (classRepeatCore isUserChar 6 40) s

/-- `EMAIL_REGEX.match(s)`, i.e.
`re.match(r'^[a-zA-Z0-9._%+-]+@[a-zA-Z0-9.-]+\.[a-zA-Z]{2,}$', s)`. -/
def emailRegexMatch (s : Str) : Bool :=
  pyMatchDollar emailCore s

/-- A row of the `User` table (`forum/models.py`), restricted to the columns
the authentication core reads: `id`, `username`, `password_hash`, `email`,
`admin`, `is_active`.  The profile and relationship columns are not consulted
by any function embedded here. -/
structure Account where
  id : Nat
  username : Str
  password_hash : Str
  email : Str
  admin : Bool
  is_active : Bool
deriving DecidableEq, Repr

/-- A row of the `login_attempts` table (`LoginAttempt` in
`forum/auth/auth_models.py`). -/
structure AttemptRecord where
  username : Str
  ip_address : Str
  successful : Bool
  attempted_at : Int
  user_agent : Option Str
deriving DecidableEq, Repr

/-- `LoginAttempt.log_attempt`: append one record with the current
timestamp to the ledger and return the new ledger. -/
def log_attempt (ledger : List AttemptRecord) (username ip_address : Str)
    (successful : Bool) (now : Int) (user_agent : Option Str) : List AttemptRecord :=
  ledger ++ [⟨username, ip_address, successful, now, user_agent⟩]

/-- `LoginAttempt.get_failed_attempts`: count the ledger records for exactly
this `(username, ip_address)` pair with `successful == False` and
`attempted_at > now - timedelta(hours=hours)`. -/
def get_failed_attempts (ledger : List AttemptRecord) (now : Int)
    (username ip_address : Str) (hours : Nat) : Nat :=
  let cutoff_time : Int := now - (hours : Int) * 3600
  (ledger.filter fun r =>
    r.username == username && r.ip_address == ip_address &&
      r.successful == false && decide (cutoff_time < r.attempted_at)).length

/-- `LoginAttempt.is_rate_limited`: `get_failed_attempts(...) >= max_attempts`. -/
def is_rate_limited (ledger : List AttemptRecord) (now : Int)
    (username ip_address : Str) (max_attempts hours : Nat) : Bool :=
  decide (max_attempts ≤ get_failed_attempts ledger now username ip_address hours)

/-- `LoginAttempt.is_rate_limited` with its Python default arguments
`max_attempts=5, hours=1`, as called by the login route. -/
def is_rate_limited_default (ledger : List AttemptRecord) (now : Int)
    (username ip_address : Str) : Bool :=
  is_rate_limited ledger now username ip_address 5 1

/-! ## Credential validators (`forum/auth/auth_validators.py`) -/

/-- `AuthValidator.is_email_taken`: `User.query.filter_by(email=email).first()
is not None`. -/
def is_email_taken (store : List Account) (email : Str) : Bool :=
  (store.find? fun a => a.email == email).isSome

/-- `AuthValidator.is_username_taken`:
`User.query.filter_by(username=username).first() is not None`. -/
def is_username_taken (store : List Account) (username : Str) : Bool :=
  (store.find? fun a => a.username == username).isSome

/-- `AuthValidator.validate_email`.  The Python `(is_valid, error_message)`
pair always has `is_valid = (error_message is None)`, so it is represented by
the `Option Str` of the error message (`none` = valid). -/
def validate_email (store : List Account) (email : Str) : Option Str :=
  if email == [] then some "Email is required".data
  else if !emailRegexMatch email then some "Invalid email format".data
  else if is_email_taken store email then
    some "An account already exists with this email".data
  else none

/-- `AuthValidator.validate_username`, as the `Option Str` of the error
message (`none` = valid). -/
def validate_username (store : List Account) (username : Str) : Option Str :=
  if username == [] then some "Username is required".data
  else if decide (username.length < 3) || decide (username.length > 40) then
    some "Username must be between 3-40 characters".data
  else if !usernameRegexMatch username then
    some "Username can only contain letters, numbers, and @#&%! characters".data
  else if is_username_taken store username then
    some "Username is already taken".data
  else none

/-- `AuthValidator.validate_password`, as the `Option Str` of the error
message (`none` = valid). -/
def validate_password (password : Str) : Option Str :=
  if password == [] then some "Password is required".data
  else if decide (password.length < 6) || decide (password.length > 40) then
    some "Password must be between 6-40 characters".data
  else if !passwordRegexMatch password then
    some "Password can only contain letters, numbers, and @#&%! characters".data
  else none

/-- `AuthValidator.validate_registration`: run the email, username and
password checks in order, appending each error message to the list, then
append the mismatch error when a confirmation is provided and differs;
return `(len(errors) == 0, errors)`. -/
def validate_registration (store : List Account) (email username password : Str)
    (confirm_password : Option Str) : Bool × List Str :=
  let errors : List Str := []
  let errors := match validate_email store email with
    | some msg => errors ++ [msg]
    | none => errors
  let errors := match validate_username store username with
    | some msg => errors ++ [msg]
    | none => errors
  let errors := match validate_password password with
    | some msg => errors ++ [msg]
    | none => errors
  let errors := match confirm_password with
    | some confirm => if password == confirm then errors else errors ++ ["Passwords do not match".data]
    | none => errors
  (errors.isEmpty, errors)

/-- Result of `AuthValidator.validate_login`.  The Python triple
`(is_valid, error_message, user)` is always either `(True, None, user)` or
`(False, msg, None)`, so it is represented as this sum. -/
inductive LoginValidation where
  | success (user : Account)
  | failure (msg : Str)
deriving DecidableEq, Repr

/-- `AuthValidator.validate_login`.  `check` abstracts
`user.check_password(password)` (werkzeug's one-way hash comparison). -/
def validate_login (check : Account → Str → Bool) (store : List Account)
    (username password : Str) : LoginValidation :=
  if username == [] || password == [] then
    .failure "Username and password are required".data
  else
    match store.find? fun a => a.username == username with
    | some user =>
      if check user password then
        if user.is_active == false then .failure "Account is deactivated".data
        else .success user
      else .failure "Invalid username or password".data
    | none => .failure "Invalid username or password".data

/-! ## Profile-edit variant of the email validator (`forum/auth.py`)

`forum/auth.py` carries the variant of `validate_email` that takes an
`exclude_user_id`, used by the profile-edit route so that a user re-submitting
their own email is not reported as a conflict. -/

/-- The uniqueness query built by `validate_email` in `forum/auth.py`:
`User.query.filter_by(email=email)`, narrowed by `User.id != exclude_user_id`
only when `if exclude_user_id:` is truthy (present and nonzero). -/
def email_conflict_query (store : List Account) (email : Str)
    (exclude_user_id : Option Nat) : List Account :=
  let q := store.filter fun a => a.email == email
  match exclude_user_id with
  | some i => if i != 0 then q.filter (fun (a : Account) => a.id != i) else q
  | none => q

/-- `validate_email(email, exclude_user_id)` from `forum/auth.py`, as the
Python pair `(is_valid, error_message)`. -/
def validate_email_exclude (store : List Account) (email : Str)
    (exclude_user_id : Option Nat) : Bool × Option Str :=
  if email == [] || !emailRegexMatch email then
    (false, some "Invalid email format".data)
  else if (email_conflict_query store email exclude_user_id).isEmpty then
    (true, none)
  else (false, some "Email already exists".data)

/-! ## Account creation and the registration route -/

/-- `AuthUser.create_user` (`forum/auth/auth_models.py`): construct the
`User` row.  `User.__init__` stores `generate_password_hash(password)`
(abstracted as `hash`), the `admin` column defaults to `False` and is set to
`True` when `username.lower() == "admin"` (validated usernames are ASCII, for
which Python's `str.lower` is per-character ASCII lowercasing, i.e.
`Char.toLower`), and `is_active` is set to `True`. -/
def create_user (hash : Str → Str) (email username password : Str) : Account :=
  { id := 0
    username := username
    password_hash := hash password
    email := email
    admin := username.map Char.toLower == "admin".data
    is_active := true }

/-- Outcome of the registration route's POST handling. -/
inductive RegisterOutcome where
  | created (user : Account)
  | invalid (errors : List Str)
deriving DecidableEq, Repr

/-- The POST branch of the `register` route
(`forum/auth/auth_routes.py`): validate the form with
`AuthValidator.validate_registration`; on success create and persist the
user, otherwise redisplay the errors. -/
def register_post (hash : Str → Str) (store : List Account)
    (email username password confirm_password : Str) : RegisterOutcome :=
  match validate_registration store email username password (some confirm_password) with
  | (true, _) => .created (create_user hash email username password)
  | (false, errors) => .invalid errors

/-! ## The login route (`forum/auth/auth_routes.py`) -/

/-- Externally visible outcome of the login route's POST handling. -/
inductive LoginOutcome where
  | rateLimited (flash : Str)
  | loggedIn (user : Account)
  | rejected (flash : Str)
deriving DecidableEq, Repr

/-- Observable steps of the login route, in order: the rate-limit ledger
read, the credential check (`AuthValidator.validate_login`, which performs the
account lookup and password verification), and each ledger append. -/
inductive LoginEvent where
  | rateLimitCheck
  | credentialCheck (username : Str)
  | ledgerAppend (username ip : Str) (successful : Bool)
deriving DecidableEq, Repr

/-- Failure of the attempt-ledger store: `db.session.commit()` raising inside
`LoginAttempt.log_attempt`. -/
inductive StoreError where
  | appendFailure
deriving DecidableEq, Repr

/-- `LoginAttempt.log_attempt` with the record store's possible failure made
explicit: when `appendOk` is false the commit raises, which the Python code
does not catch. -/
def log_attempt_store (appendOk : Bool) (ledger : List AttemptRecord)
    (username ip_address : Str) (successful : Bool) (now : Int)
    (user_agent : Option Str) : Except StoreError (List AttemptRecord) :=
  if appendOk then .ok (log_attempt ledger username ip_address successful now user_agent)
  else .error .appendFailure

/-- Result of a completed login POST: the outcome shown to the client, the
ledger after the attempt was recorded, and the trace of observable steps. -/
structure LoginResult where
  outcome : LoginOutcome
  ledger : List AttemptRecord
  events : List LoginEvent
deriving DecidableEq, Repr

/-- The POST branch of the `login` route (`forum/auth/auth_routes.py`):

1. check `LoginAttempt.is_rate_limited(username, client_ip)` (defaults
   `max_attempts=5, hours=1`); if limited, log a failed attempt and flash the
   throttling message without calling `validate_login`;
2. otherwise run `AuthValidator.validate_login`; on success log a successful
   attempt and log the user in; on failure log a failed attempt and flash the
   validator's message.

Every `log_attempt` call goes straight to the store with no `try/except`, so
a store failure propagates as `.error` and no outcome is produced. -/
def login_post (appendOk : Bool) (check : Account → Str → Bool)
    (store : List Account) (ledger : List AttemptRecord) (now : Int)
    (username password client_ip : Str) (user_agent : Option Str) :
    Except StoreError LoginResult :=
  if is_rate_limited_default ledger now username client_ip then
    match log_attempt_store appendOk ledger username client_ip false now user_agent with
    | .error e => .error e
    | .ok ledger2 =>
      .ok { outcome := .rateLimited "Too many failed login attempts. Please try again later.".data
            ledger := ledger2
            events := [.rateLimitCheck, .ledgerAppend username client_ip false] }
  else
    match validate_login check store username password with
    | .success user =>
      match log_attempt_store appendOk ledger username client_ip true now user_agent with
      | .error e => .error e
      | .ok ledger2 =>
        .ok { outcome := .loggedIn user
              ledger := ledger2
              events := [.rateLimitCheck, .credentialCheck username,
                         .ledgerAppend username client_ip true] }
    | .failure msg =>
      match log_attempt_store appendOk ledger username client_ip false now user_agent with
      | .error e => .error e
      | .ok ledger2 =>
        .ok { outcome := .rejected msg
              ledger := ledger2
              events := [.rateLimitCheck, .credentialCheck username,
                         .ledgerAppend username client_ip false] }

/-! ## Theorems -/

/-- C1: `is_rate_limited(username, source_address, maxAttempts, windowHours)`
returns true iff the number of ledger records with exactly that username and
source address, `success = false`, and timestamp strictly greater than
`now - windowHours` is at least `maxAttempts`; the route-facing default is
`maxAttempts = 5`, `windowHours = 1`. -/
theorem rate_limited_iff_recent_failures (ledger : List AttemptRecord)
    (now : Int) (username ip : Str) (maxAttempts windowHours : Nat) :
    (is_rate_limited ledger now username ip maxAttempts windowHours = true ↔
      maxAttempts ≤ ledger.countP fun r =>
        decide (r.username = username ∧ r.ip_address = ip ∧
          r.successful = false ∧ now - (windowHours : Int) * 3600 < r.attempted_at)) ∧
    is_rate_limited_default ledger now username ip =
      is_rate_limited ledger now username ip 5 1 := by
  refine ⟨?_, rfl⟩
  unfold is_rate_limited get_failed_attempts
  rw [decide_eq_true_iff]
  have hlen : (ledger.filter fun r =>
      r.username == username && r.ip_address == ip &&
        r.successful == false &&
        decide (now - (windowHours : Int) * 3600 < r.attempted_at)).length =
      ledger.countP fun r =>
        decide (r.username = username ∧ r.ip_address = ip ∧
          r.successful = false ∧ now - (windowHours : Int) * 3600 < r.attempted_at) := by
    rw [List.countP_eq_length_filter]
    apply congrArg
    apply List.filter_congr
    intro r _
    apply Bool.eq_iff_iff.mpr
    simp [and_assoc]
  rw [hlen]

/-- C4: once a `(username, source_address)` pair has at least 5 failures in
the trailing 1-hour window, recording an additional *successful* attempt for
that pair leaves `is_rate_limited` true — only failures aging out of the
window can lift the block. -/
theorem success_append_keeps_rate_limited (ledger : List AttemptRecord)
    (now : Int) (username ip : Str) (ua : Option Str)
    (h : is_rate_limited ledger now username ip 5 1 = true) :
    is_rate_limited (log_attempt ledger username ip true now ua)
      now username ip 5 1 = true := by
  have hc : get_failed_attempts (log_attempt ledger username ip true now ua)
      now username ip 1 = get_failed_attempts ledger now username ip 1 := by
    unfold get_failed_attempts log_attempt
    simp
  unfold is_rate_limited at h ⊢
  rw [hc]
  exact h

/-- Witness for C4 at a concrete ledger of five recent failures. -/
theorem success_append_keeps_rate_limited_witness :
    is_rate_limited (List.replicate 5 ⟨"a".data, "i".data, false, 99, none⟩)
      100 "a".data "i".data 5 1 = true ∧
    is_rate_limited
      (log_attempt (List.replicate 5 ⟨"a".data, "i".data, false, 99, none⟩)
        "a".data "i".data true 100 none) 100 "a".data "i".data 5 1 = true :=
  ⟨by decide,
   success_append_keeps_rate_limited _ 100 _ _ none (by decide)⟩

/-- C2: `validate_registration` runs the email, username, password and
confirmation checks without short-circuiting; the returned error list is
exactly the email errors, then username errors, then password errors, then
the mismatch error; the result is valid iff that list is empty. -/
theorem registration_accumulates_all_errors_in_order (store : List Account)
    (email username password confirm : Str) :
    (validate_registration store email username password (some confirm)).2 =
      (validate_email store email).toList ++
      (validate_username store username).toList ++
      (validate_password password).toList ++
      (if password == confirm then [] else ["Passwords do not match".data]) ∧
    ((validate_registration store email username password (some confirm)).1 = true ↔
      (validate_registration store email username password (some confirm)).2 = []) := by
  unfold validate_registration
  cases validate_email store email <;>
    cases validate_username store username <;>
    cases validate_password password <;>
    cases h : password == confirm <;>
    simp [h, List.isEmpty_iff]

/-- The username pattern `^[a-zA-Z0-9@#&%!]{3,40}$` matches under Python's
`re.match` iff the string is 3–40 characters of the class, or such a run
followed by one final newline. -/
theorem usernameRegexMatch_iff (u : Str) :
    usernameRegexMatch u = true ↔
      ((3 ≤ u.length ∧ u.length ≤ 40 ∧ u.all isUserChar = true) ∨
       (u.getLast? = some '\n' ∧ 3 ≤ u.dropLast.length ∧
         u.dropLast.length ≤ 40 ∧ u.dropLast.all isUserChar = true)) := by
  unfold usernameRegexMatch pyMatchDollar classRepeatCore
  simp [and_assoc]

/-- C6 (counterexample): `"abc\n"` passes the username format check of
`validate_username` (it reaches the uniqueness check and, on an empty store,
validates), yet it contains a character — the newline — outside the allowed
alphabet, because Python's `$` anchor also matches just before a final
newline. -/
theorem username_format_newline_counterexample :
    validate_username [] ("abc\n".data) = none ∧
    ("abc\n".data).all isUserChar = false ∧
    3 ≤ ("abc\n".data).length ∧ ("abc\n".data).length ≤ 40 := by
  decide

/-- C6 (amended): the username format check of `validate_username` — i.e.
the validator returns no error other than possibly the uniqueness conflict —
passes iff the length is in `[3, 40]` and either every character is an ASCII
letter, digit, or one of `@ # & % !`, or the string is at least three such
characters followed by a single trailing newline (an artifact of Python's `$`
anchor).  In particular every string of length below 3 or above 40 fails. -/
theorem username_format_check_characterization (store : List Account) (u : Str) :
    (validate_username store u = none ∨
      validate_username store u = some "Username is already taken".data) ↔
    (3 ≤ u.length ∧ u.length ≤ 40 ∧
      (u.all isUserChar = true ∨
        (u.getLast? = some '\n' ∧ u.dropLast.all isUserChar = true ∧
          3 ≤ u.dropLast.length))) := by
  have hmsg1 : "Username is required".data ≠ "Username is already taken".data := by decide
  have hmsg2 : "Username must be between 3-40 characters".data ≠
      "Username is already taken".data := by decide
  have hmsg3 : "Username can only contain letters, numbers, and @#&%! characters".data ≠
      "Username is already taken".data := by decide
  have hre := usernameRegexMatch_iff u
  have hdll := List.length_dropLast u
  unfold validate_username
  by_cases h0 : u = []
  · subst h0; simp [hmsg1]
  · by_cases h1 : u.length < 3 ∨ u.length > 40
    · have hc : (decide (u.length < 3) || decide (u.length > 40)) = true := by
        rcases h1 with h | h <;> simp [h]
      simp [h0, hc, hmsg2]
      intro h3 h40
      omega
    · push_neg at h1
      obtain ⟨hlen3, hlen40⟩ := h1
      have hc : (decide (u.length < 3) || decide (u.length > 40)) = false := by
        simp; omega
      by_cases hm : usernameRegexMatch u = true
      · have hP := hre.mp hm
        cases ht : is_username_taken store u <;>
          · simp [h0, hc, hm, ht, hlen3, hlen40, -List.all_eq_true]
            rcases hP with ⟨_, _, hall⟩ | ⟨hnl, hdl3, _, hall⟩
            · exact Or.inl hall
            · exact Or.inr ⟨hnl, hall, by omega⟩
      · have hmf : usernameRegexMatch u = false := by
          cases hq : usernameRegexMatch u
          · rfl
          · exact absurd hq hm
        simp [h0, hc, hmf, hmsg3, -List.all_eq_true]
        intro h3' h40'
        refine ⟨?_, ?_⟩
        · by_contra hex
          push_neg at hex
          have hall : u.all isUserChar = true := by
            rw [List.all_eq_true]
            intro x hx
            exact Bool.ne_false_iff.mp (hex x hx)
          exact hm (hre.mpr (Or.inl ⟨hlen3, hlen40, hall⟩))
        · intro hnl hall
          by_contra hlt
          push_neg at hlt
          exact hm (hre.mpr (Or.inr ⟨hnl, by omega, by omega, hall⟩))

/-- The email shape as the spec words it: a nonempty local part over ASCII
letters, digits and `. _ % + -`, an `@`, a domain over letters, digits, dot
and hyphen, and — after its last-matched dot — a top-level label of two or
more letters.  (This is the claim-side reading of `local-part@domain.tld`;
it is compared below with what `EMAIL_REGEX` actually accepts.) -/
def SpecEmailShape (s : Str) : Prop :=
  ∃ l d tl : Str, s = l ++ '@' :: (d ++ '.' :: tl) ∧ l ≠ [] ∧
    l.all isLocalChar = true ∧ d ≠ [] ∧ d.all isDomainChar = true ∧
    2 ≤ tl.length ∧ tl.all Char.isAlpha = true

/-- The domain-tail search of `emailCore` succeeds exactly on strings of the
form `domain ++ "." ++ tld` with `domain` nonempty over the domain class and
`tld` at least two letters. -/
theorem emailDomainTail_iff (r : Str) :
    emailDomainTail r = true ↔
      ∃ d tl : Str, r = d ++ '.' :: tl ∧ d ≠ [] ∧ d.all isDomainChar = true ∧
        2 ≤ tl.length ∧ tl.all Char.isAlpha = true := by
  unfold emailDomainTail
  rw [List.any_eq_true]
  constructor
  · rintro ⟨j, hj, hcond⟩
    rw [List.mem_range] at hj
    simp only [Bool.and_eq_true, decide_eq_true_iff, beq_iff_eq] at hcond
    obtain ⟨⟨⟨⟨h1j, hget⟩, htake⟩, hlen⟩, halpha⟩ := hcond
    refine ⟨r.take j, r.drop (j + 1), ?_, ?_, htake, hlen, halpha⟩
    · have hdrop : r.drop j = r.get ⟨j, hj⟩ :: r.drop (j + 1) := List.drop_eq_get_cons hj
      have hget' : r.get ⟨j, hj⟩ = '.' := by
        have := List.get?_eq_get hj
        rw [this] at hget
        exact Option.some.inj hget
      calc r = r.take j ++ r.drop j := (List.take_append_drop j r).symm
        _ = r.take j ++ '.' :: r.drop (j + 1) := by rw [hdrop, hget']
    · have : (r.take j).length = j := by
        rw [List.length_take]
        omega
      intro hnil
      rw [hnil] at this
      simp at this
      omega
  · rintro ⟨d, tl, hr, hd, hdall, htl, htlall⟩
    refine ⟨d.length, ?_, ?_⟩
    · rw [List.mem_range, hr, List.length_append, List.length_cons]
      omega
    · simp only [Bool.and_eq_true, decide_eq_true_iff, beq_iff_eq]
      have hgd : r.get? d.length = some '.' := by
        rw [hr, List.get?_append_right (le_refl _)]
        simp
      have htk : r.take d.length = d := by
        rw [hr, List.take_left]
      have hdr : r.drop (d.length + 1) = tl := by
        rw [hr]
        rw [List.drop_append_eq_append_drop]
        simp
      refine ⟨⟨⟨⟨?_, hgd⟩, by rw [htk]; exact hdall⟩, by rw [hdr]; exact htl⟩,
        by rw [hdr]; exact htlall⟩
      cases d with
      | nil => exact absurd rfl hd
      | cons a l => simp

/-- `emailCore` — the full match of `EMAIL_REGEX` without the `$`-anchor
quirk — accepts exactly the strings of the spec's `local-part@domain.tld`
shape. -/
theorem emailCore_iff_spec_shape (t : Str) :
    emailCore t = true ↔ SpecEmailShape t := by
  unfold emailCore SpecEmailShape
  rw [List.any_eq_true]
  constructor
  · rintro ⟨i, hi, hcond⟩
    rw [List.mem_range] at hi
    simp only [Bool.and_eq_true, decide_eq_true_iff, beq_iff_eq] at hcond
    obtain ⟨⟨⟨h1i, hget⟩, htake⟩, htail⟩ := hcond
    obtain ⟨d, tl, hdec, hd, hdall, htl, htlall⟩ := (emailDomainTail_iff _).mp htail
    refine ⟨t.take i, d, tl, ?_, ?_, htake, hd, hdall, htl, htlall⟩
    · have hdrop : t.drop i = t.get ⟨i, hi⟩ :: t.drop (i + 1) := List.drop_eq_get_cons hi
      have hget' : t.get ⟨i, hi⟩ = '@' := by
        have := List.get?_eq_get hi
        rw [this] at hget
        exact Option.some.inj hget
      calc t = t.take i ++ t.drop i := (List.take_append_drop i t).symm
        _ = t.take i ++ '@' :: (d ++ '.' :: tl) := by rw [hdrop, hget', hdec]
    · have : (t.take i).length = i := by
        rw [List.length_take]
        omega
      intro hnil
      rw [hnil] at this
      simp at this
      omega
  · rintro ⟨l, d, tl, ht, hl, hlall, hd, hdall, htl, htlall⟩
    refine ⟨l.length, ?_, ?_⟩
    · rw [List.mem_range, ht, List.length_append, List.length_cons]
      omega
    · simp only [Bool.and_eq_true, decide_eq_true_iff, beq_iff_eq]
      have hgd : t.get? l.length = some '@' := by
        rw [ht, List.get?_append_right (le_refl _)]
        simp
      have htk : t.take l.length = l := by
        rw [ht, List.take_left]
      have hdr : t.drop (l.length + 1) = d ++ '.' :: tl := by
        rw [ht, List.drop_append_eq_append_drop]
        simp
      refine ⟨⟨⟨?_, hgd⟩, by rw [htk]; exact hlall⟩, ?_⟩
      · cases l with
        | nil => exact absurd rfl hl
        | cons a m => simp
      · rw [hdr]
        exact (emailDomainTail_iff _).mpr ⟨d, tl, rfl, hd, hdall, htl, htlall⟩

/-- What `EMAIL_REGEX.match` actually accepts: the spec shape, or the spec
shape followed by one final newline (Python's `$` anchor). -/
def PyEmailAccepted (s : Str) : Prop :=
  SpecEmailShape s ∨ (s.getLast? = some '\n' ∧ SpecEmailShape s.dropLast)

/-- `emailRegexMatch` decides `PyEmailAccepted`. -/
theorem emailRegexMatch_iff_accepted (s : Str) :
    emailRegexMatch s = true ↔ PyEmailAccepted s := by
  unfold emailRegexMatch pyMatchDollar PyEmailAccepted
  rw [Bool.or_eq_true, Bool.and_eq_true, beq_iff_eq,
    emailCore_iff_spec_shape, emailCore_iff_spec_shape]

/-- Membership in the uniqueness query of `validate_email`: for stores whose
ids are all nonzero (as database primary keys are), an account is returned
iff it has the candidate email and its id is not the excluded one. -/
theorem mem_email_conflict_query (store : List Account) (e : Str)
    (exclude : Option Nat) (hid : ∀ a ∈ store, a.id ≠ 0) (a : Account) :
    a ∈ email_conflict_query store e exclude ↔
      a ∈ store ∧ a.email = e ∧ some a.id ≠ exclude := by
  unfold email_conflict_query
  cases exclude with
  | none =>
    simp [List.mem_filter]
  | some i =>
    by_cases hi : i = 0
    · subst hi
      simp [List.mem_filter]
      intro ha _
      exact hid a ha
    · have hib : (i != 0) = true := by simp [hi]
      simp [hib, List.mem_filter]
      intro _
      exact and_comm

/-- C7 (counterexample): `"a@b.co\n"` does not have the spec's
`local-part@domain.tld` shape (it ends in a newline), yet `validate_email`
accepts it — no format error — because Python's `$` anchor matches before a
final newline.  Also, with `exclude_user_id = 0` (falsy in Python) the id
filter is skipped, so an account whose identifier equals the excluded id is
still reported as a conflict. -/
theorem email_validation_counterexample :
    validate_email_exclude [] ("a@b.co\n".data) none = (true, none) ∧
    ¬ SpecEmailShape ("a@b.co\n".data) ∧
    validate_email_exclude [⟨0, "u".data, "h".data, "x@y.co".data, false, true⟩]
      ("x@y.co".data) (some 0) = (false, some "Email already exists".data) := by
  refine ⟨by decide, fun hs => ?_, by decide⟩
  exact absurd ((emailCore_iff_spec_shape _).mpr hs) (by decide)

/-- C7 (amended): for every store whose account ids are nonzero,
`validate_email` fails with a format error exactly when the candidate neither
has the `local-part@domain.tld` shape nor is such a shape followed by one
trailing newline, and fails with a conflict error exactly when the format is
accepted and an account with that email exists whose identifier differs from
`exclude_user_id` — so an account holder re-submitting their own email does
not trigger a self-conflict. -/
theorem validate_email_exclude_characterization (store : List Account) (e : Str)
    (exclude : Option Nat) (hid : ∀ a ∈ store, a.id ≠ 0) :
    ((validate_email_exclude store e exclude).2 = some "Invalid email format".data ↔
      ¬ PyEmailAccepted e) ∧
    ((validate_email_exclude store e exclude).2 = some "Email already exists".data ↔
      (PyEmailAccepted e ∧ ∃ a ∈ store, a.email = e ∧ some a.id ≠ exclude)) := by
  have hmsg : "Invalid email format".data ≠ "Email already exists".data := by decide
  have hmatch := emailRegexMatch_iff_accepted e
  have hmem := mem_email_conflict_query store e exclude hid
  unfold validate_email_exclude
  by_cases hm : emailRegexMatch e = true
  · have he : e ≠ [] := by
      rintro rfl
      rcases hmatch.mp hm with ⟨l, d, tl, habs, -⟩ | ⟨habs, -⟩
      · exact absurd habs.symm (by simp)
      · exact absurd habs (by simp)
    have hcond : (e == [] || !emailRegexMatch e) = false := by
      simp [he, hm]
    rw [hcond]
    simp only [Bool.false_eq_true, if_false]
    cases hq : (email_conflict_query store e exclude).isEmpty
    · simp only [hq, Bool.false_eq_true, if_false]
      have hne : email_conflict_query store e exclude ≠ [] := by
        intro hnil
        rw [hnil] at hq
        simp at hq
      have hex := List.exists_mem_of_ne_nil _ hne
      constructor
      · constructor
        · intro habs
          exact absurd (Option.some.inj habs).symm hmsg
        · intro hcontra
          exact absurd (hmatch.mp hm) hcontra
      · constructor
        · intro _
          obtain ⟨a, ha⟩ := hex
          have h3 := (hmem a).mp ha
          exact ⟨hmatch.mp hm, a, h3.1, h3.2.1, h3.2.2⟩
        · intro _
          trivial
    · simp only [hq, eq_self_iff_true, if_true]
      have hempty : ∀ b, b ∈ email_conflict_query store e exclude → False := by
        intro b hb
        cases hqq : email_conflict_query store e exclude with
        | nil => rw [hqq] at hb; exact absurd hb (List.not_mem_nil b)
        | cons x xs => rw [hqq] at hq; simp at hq
      constructor
      · constructor
        · intro habs
          exact Option.noConfusion habs
        · intro hcontra
          exact absurd (hmatch.mp hm) hcontra
      · constructor
        · intro habs
          exact Option.noConfusion habs
        · rintro ⟨-, a, ha, hae, hane⟩
          exact absurd ((hmem a).mpr ⟨ha, hae, hane⟩) (fun hh => hempty a hh)
  · have hmf : emailRegexMatch e = false := by
      cases hq : emailRegexMatch e
      · rfl
      · exact absurd hq hm
    have hcond : (e == [] || !emailRegexMatch e) = true := by
      simp [hmf]
    rw [hcond]
    simp only [if_true]
    constructor
    · constructor
      · intro _
        intro hacc
        exact hm (hmatch.mpr hacc)
      · intro _
        trivial
    · constructor
      · intro habs
        exact absurd (Option.some.inj habs) hmsg
      · rintro ⟨hacc, -⟩
        exact absurd (hmatch.mpr hacc) hm

/-- Witness for the amended C7 theorem at the empty store and a well-formed
candidate. -/
theorem validate_email_exclude_characterization_witness :
    ((validate_email_exclude [] ("a@b.co".data) none).2 =
        some "Invalid email format".data ↔ ¬ PyEmailAccepted ("a@b.co".data)) ∧
    ((validate_email_exclude [] ("a@b.co".data) none).2 =
        some "Email already exists".data ↔
      (PyEmailAccepted ("a@b.co".data) ∧
        ∃ a ∈ ([] : List Account), a.email = ("a@b.co".data) ∧ some a.id ≠ none)) :=
  validate_email_exclude_characterization [] ("a@b.co".data) none (by simp)

/-- C3 (counterexample): a run with an unknown username yields the generic
invalid-credentials message, but a run against the existing active account
`alice` with the wrong password `""` yields the distinct message
`"Username and password are required"` — the two runs are distinguishable,
so the claim does not hold for every pair of such runs. -/
theorem login_enumeration_counterexample :
    validate_login (fun a pw => a.password_hash == pw)
      [⟨1, "alice".data, "secret".data, "a@x.co".data, false, true⟩]
      ("nouser".data) ("whatever".data) =
        .failure "Invalid username or password".data ∧
    (List.find? (fun (a : Account) => a.username == "nouser".data)
      [⟨1, "alice".data, "secret".data, "a@x.co".data, false, true⟩] = none) ∧
    (fun (a : Account) (pw : Str) => a.password_hash == pw)
      (⟨1, "alice".data, "secret".data, "a@x.co".data, false, true⟩ : Account) [] = false ∧
    validate_login (fun a pw => a.password_hash == pw)
      [⟨1, "alice".data, "secret".data, "a@x.co".data, false, true⟩]
      ("alice".data) [] = .failure "Username and password are required".data ∧
    "Username and password are required".data ≠
      "Invalid username or password".data := by
  decide

/-- C3 (amended): provided both runs submit a nonempty username and a
nonempty password, a run with an unknown username and a run against an
existing active account with a wrong password produce the identical generic
`"Invalid username or password"` failure, so the outcome does not distinguish
unknown user from wrong password. -/
theorem login_enumeration_resistance (check : Account → Str → Bool)
    (store : List Account) (u1 p1 u2 p2 : Str) (acct : Account)
    (hu1 : u1 ≠ []) (hp1 : p1 ≠ [])
    (hnone : store.find? (fun a => a.username == u1) = none)
    (hu2 : u2 ≠ []) (hp2 : p2 ≠ [])
    (hfind : store.find? (fun a => a.username == u2) = some acct)
    (_hactive : acct.is_active = true)
    (hwrong : check acct p2 = false) :
    validate_login check store u1 p1 =
      .failure "Invalid username or password".data ∧
    validate_login check store u2 p2 =
      .failure "Invalid username or password".data := by
  unfold validate_login
  constructor
  · simp [hu1, hp1, hnone]
  · simp [hu2, hp2, hfind, hwrong]

/-- Witness for the amended C3 theorem: unknown `nouser` versus active
`alice` with a wrong nonempty password. -/
theorem login_enumeration_resistance_witness :
    validate_login (fun a pw => a.password_hash == pw)
      [⟨1, "alice".data, "secret".data, "a@x.co".data, false, true⟩]
      ("nouser".data) ("x".data) =
        .failure "Invalid username or password".data ∧
    validate_login (fun a pw => a.password_hash == pw)
      [⟨1, "alice".data, "secret".data, "a@x.co".data, false, true⟩]
      ("alice".data) ("wrong".data) =
        .failure "Invalid username or password".data :=
  login_enumeration_resistance (fun a pw => a.password_hash == pw)
    [⟨1, "alice".data, "secret".data, "a@x.co".data, false, true⟩]
    ("nouser".data) ("x".data) ("alice".data) ("wrong".data)
    ⟨1, "alice".data, "secret".data, "a@x.co".data, false, true⟩
    (by decide) (by decide) (by decide) (by decide) (by decide)
    (by decide) (by decide) (by decide)

/-- C10: a login where the username matches an account, the password
verifies, but the account is inactive fails with the distinct
`"Account is deactivated"` message, which differs from the generic
invalid-credentials message. -/
theorem deactivated_account_distinct_message (check : Account → Str → Bool)
    (store : List Account) (u p : Str) (acct : Account)
    (hu : u ≠ []) (hp : p ≠ [])
    (hfind : store.find? (fun a => a.username == u) = some acct)
    (hok : check acct p = true) (hinactive : acct.is_active = false) :
    validate_login check store u p = .failure "Account is deactivated".data ∧
    "Account is deactivated".data ≠ "Invalid username or password".data := by
  refine ⟨?_, by decide⟩
  unfold validate_login
  simp [hu, hp, hfind, hok, hinactive]

/-- Witness for C10: deactivated `bob` with the correct password. -/
theorem deactivated_account_distinct_message_witness :
    validate_login (fun a pw => a.password_hash == pw)
      [⟨2, "bob".data, "pw1234".data, "b@x.co".data, false, false⟩]
      ("bob".data) ("pw1234".data) = .failure "Account is deactivated".data ∧
    "Account is deactivated".data ≠ "Invalid username or password".data :=
  deactivated_account_distinct_message (fun a pw => a.password_hash == pw)
    [⟨2, "bob".data, "pw1234".data, "b@x.co".data, false, false⟩]
    ("bob".data) ("pw1234".data)
    ⟨2, "bob".data, "pw1234".data, "b@x.co".data, false, false⟩
    (by decide) (by decide) (by decide) (by decide) (by decide)

/-- C9: for every registration that passes validation, the created account's
administrator flag is true exactly when the submitted username equals
`"admin"` ignoring ASCII case; any other username keeps the default `false`. -/
theorem admin_username_sets_admin_flag (hash : Str → Str) (store : List Account)
    (e u p c : Str)
    (hvalid : (validate_registration store e u p (some c)).1 = true) :
    register_post hash store e u p c = .created (create_user hash e u p) ∧
    ((create_user hash e u p).admin = true ↔ u.map Char.toLower = "admin".data) := by
  constructor
  · unfold register_post
    cases hv : validate_registration store e u p (some c) with
    | mk b errs =>
      rw [hv] at hvalid
      simp only at hvalid
      subst hvalid
      simp
  · unfold create_user
    simp

/-- Witness for C9: registering as `Admin` passes validation on an empty
store and yields an account with the administrator flag set. -/
theorem admin_username_sets_admin_flag_witness :
    register_post (fun pw => pw) [] ("a@b.co".data) ("Admin".data)
        ("abcdef".data) ("abcdef".data) =
      .created (create_user (fun pw => pw) ("a@b.co".data) ("Admin".data)
        ("abcdef".data)) ∧
    ((create_user (fun pw => pw) ("a@b.co".data) ("Admin".data)
        ("abcdef".data)).admin = true ↔
      ("Admin".data).map Char.toLower = "admin".data) :=
  admin_username_sets_admin_flag (fun pw => pw) [] ("a@b.co".data)
    ("Admin".data) ("abcdef".data) ("abcdef".data) (by decide)

/-- C5: when the rate limiter reports the pair as limited, the login route
records a failed attempt for audit, reports the throttling message, and its
event trace contains no credential check — the rate-limit check precedes any
account lookup or password verification. -/
theorem rate_limited_blocks_before_credential_check (check : Account → Str → Bool)
    (store : List Account) (ledger : List AttemptRecord) (now : Int)
    (u p ip : Str) (ua : Option Str)
    (h : is_rate_limited_default ledger now u ip = true) :
    login_post true check store ledger now u p ip ua =
      .ok { outcome := .rateLimited
              "Too many failed login attempts. Please try again later.".data
            ledger := log_attempt ledger u ip false now ua
            events := [.rateLimitCheck, .ledgerAppend u ip false] } ∧
    ∀ un, LoginEvent.credentialCheck un ∉
      [LoginEvent.rateLimitCheck, LoginEvent.ledgerAppend u ip false] := by
  constructor
  · unfold login_post log_attempt_store
    simp [h]
  · intro un
    simp

/-- Witness for C5: a pair with five recent failures is throttled without a
credential check. -/
theorem rate_limited_blocks_before_credential_check_witness :
    login_post true (fun a pw => a.password_hash == pw) []
        (List.replicate 5 ⟨"b".data, "j".data, false, 49, none⟩) 50
        ("b".data) ("p".data) ("j".data) none =
      .ok { outcome := .rateLimited
              "Too many failed login attempts. Please try again later.".data
            ledger := log_attempt
              (List.replicate 5 ⟨"b".data, "j".data, false, 49, none⟩)
              ("b".data) ("j".data) false 50 none
            events := [.rateLimitCheck, .ledgerAppend ("b".data) ("j".data) false] } ∧
    ∀ un, LoginEvent.credentialCheck un ∉
      [LoginEvent.rateLimitCheck,
       LoginEvent.ledgerAppend ("b".data) ("j".data) false] :=
  rate_limited_blocks_before_credential_check (fun a pw => a.password_hash == pw)
    [] (List.replicate 5 ⟨"b".data, "j".data, false, 49, none⟩) 50
    ("b".data) ("p".data) ("j".data) none (by decide)

/-- C8 (counterexample): when the attempt-ledger store fails during
`log_attempt`, the login route propagates the storage error — no
authentication outcome is returned to the caller. -/
theorem logging_failure_counterexample :
    login_post false (fun a pw => a.password_hash == pw) [] [] 0
      ("u1".data) ("p1".data) ("ip".data) none = .error .appendFailure := by
  rfl

/-- C8 (amended): a ledger-store failure while recording the attempt is not
caught by the login route — it propagates and the authentication outcome is
not delivered; the outcome is delivered exactly when the ledger append
succeeds. -/
theorem logging_failure_propagates (check : Account → Str → Bool)
    (store : List Account) (ledger : List AttemptRecord) (now : Int)
    (u p ip : Str) (ua : Option Str) :
    login_post false check store ledger now u p ip ua = .error .appendFailure ∧
    ∃ r, login_post true check store ledger now u p ip ua = .ok r := by
  constructor
  · unfold login_post log_attempt_store
    by_cases h : is_rate_limited_default ledger now u ip = true
    · simp [h]
    · cases hv : validate_login check store u p <;> simp [h, hv]
  · unfold login_post log_attempt_store
    by_cases h : is_rate_limited_default ledger now u ip = true
    · refine ⟨⟨.rateLimited "Too many failed login attempts. Please try again later.".data,
        log_attempt ledger u ip false now ua,
        [.rateLimitCheck, .ledgerAppend u ip false]⟩, ?_⟩
      simp [h]
    · cases hv : validate_login check store u p with
      | success user =>
        refine ⟨⟨.loggedIn user, log_attempt ledger u ip true now ua,
          [.rateLimitCheck, .credentialCheck u, .ledgerAppend u ip true]⟩, ?_⟩
        simp [h, hv]
      | failure msg =>
        refine ⟨⟨.rejected msg, log_attempt ledger u ip false now ua,
          [.rateLimitCheck, .credentialCheck u, .ledgerAppend u ip false]⟩, ?_⟩
        simp [h, hv]
